import Mathlib

/-!
Verification of the PLTK scanning algorithms.

The repository provides four scanning operations (`scan`, `scan_if`,
`scan_not`, `scan_if_not`) implemented twice — once in the header
`scanning_algorithms.hpp` (namespace `pltk::detail`) and once in the exported
module `scanning_algorithms` (namespace `pltk`) — plus two combinators
(`scan_excluding`, `scan_while_excluding`) that exist only in the module.

Embedding: a sequence is a `List α`; a cursor is a `Nat` index `i` into it,
and the end marker of the sequence is its length, so `first == last`
corresponds to `s.drop i = []` (equivalently `i = s.length` for a cursor
walked incrementally from a valid position, which by the Position Model
contract never moves past the end marker).  Advancing a cursor by one is
`i + 1`; note that the embedding, like the C++ code, happily produces `i + 1`
even when `i` is already at the end (there is no bounds check in the code).
Comparison and transformation policies are ordinary Lean functions; predicates
return `Bool` exactly as the C++ predicates return a boolean.  A wrapped
"scanning operation" for the combinators is a function `Nat → Nat → Nat`
taking the cursor and the end marker, mirroring the `(I, S) → I` contract.
All operations are total Lean functions returning a plain `Nat` — there is no
`Option`/`Except` anywhere, matching the code's lack of any exceptional
control-flow path.
-/

namespace pltk

universe u v w x

variable {α : Type u} {β : Type v} {γ : Type w} {δ : Type x}

/-- Model of `std::ranges::mismatch(first1, last1, first2, last2, pred, proj1,
proj2)` applied to the sequences remaining after each cursor.  Both cursors
advance in lockstep while neither has reached its end and
`pred(proj1(*in1), proj2(*in2))` holds; the call returns the pair of final
cursors `(first1 + k, first2 + k)` where `k` is the number computed here.
In particular the returned `in2` equals `last2` iff `k` equals the length of
the second sequence. -/
def mismatchCount (pred : γ → δ → Bool) (proj1 : α → γ) (proj2 : β → δ) :
    List α → List β → Nat
  | a :: xs, b :: ys =>
      if pred (proj1 a) (proj2 b) then mismatchCount pred proj1 proj2 xs ys + 1
      else 0
  | _, _ => 0

namespace detail

/-- `pltk::detail::scan_fn::operator()(I first, S last, const T and value, Pred
pred, Proj proj)` — scanning_algorithms.hpp lines 37-41:
`if (first == last || !invoke(pred, invoke(proj, *first), value)) return first;
return first + 1;`. -/
def scan_fn_value (s : List α) (i : Nat) (v : δ)
    (pred : γ → δ → Bool) (proj : α → γ) : Nat :=
  match s.drop i with
  | [] => i
  | a :: _ => if pred (proj a) v then i + 1 else i

/-- `pltk::detail::scan_fn::operator()(I1 first1, S1 last1, I2 first2, S2
last2, Pred pred, Proj1 proj1, Proj2 proj2)` — scanning_algorithms.hpp lines
59-70: `auto ends = mismatch(first1, last1, first2, last2, pred, proj1,
proj2); return ends.in2 == last2 ? ends.in1 : first1;`.  Here `ends.in1` is
`first1` advanced by `mismatchCount`, and `ends.in2 == last2` holds iff that
count equals the pattern's length. -/
def scan_fn_pattern (s : List α) (i : Nat) (p : List β)
    (pred : γ → δ → Bool) (proj1 : α → γ) (proj2 : β → δ) : Nat :=
  let k := mismatchCount pred proj1 proj2 (s.drop i) p
  if k = p.length then i + k else i

/-- `pltk::detail::scan_if_fn::operator()(I first, S last, Pred pred, Proj
proj)` — scanning_algorithms.hpp lines 123-127: `if (first == last ||
!invoke(pred, invoke(proj, *first))) return first; return first + 1;`. -/
def scan_if_fn (s : List α) (i : Nat) (pred : γ → Bool) (proj : α → γ) : Nat :=
  match s.drop i with
  | [] => i
  | a :: _ => if pred (proj a) then i + 1 else i

/-- `pltk::detail::scan_not_fn::operator()(I first, S last, const T and value,
Pred pred, Proj proj)` — scanning_algorithms.hpp lines 144-148: `if (first ==
last || invoke(pred, invoke(proj, *first), value)) return first; return first
+ 1;`. -/
def scan_not_fn_value (s : List α) (i : Nat) (v : δ)
    (pred : γ → δ → Bool) (proj : α → γ) : Nat :=
  match s.drop i with
  | [] => i
  | a :: _ => if pred (proj a) v then i else i + 1

/-- `pltk::detail::scan_not_fn::operator()(I1 first1, S1 last1, I2 first2, S2
last2, Pred pred, Proj1 proj1, Proj2 proj2)` — scanning_algorithms.hpp lines
166-177: `auto ptrs = mismatch(first1, last1, first2, last2, pred, proj1,
proj2); return ptrs.in2 != last2 ? first1 + 1 : first1;`. -/
def scan_not_fn_pattern (s : List α) (i : Nat) (p : List β)
    (pred : γ → δ → Bool) (proj1 : α → γ) (proj2 : β → δ) : Nat :=
  let k := mismatchCount pred proj1 proj2 (s.drop i) p
  if k ≠ p.length then i + 1 else i

/-- `pltk::detail::scan_if_not_fn::operator()(I first, S last, Pred pred, Proj
proj)` — scanning_algorithms.hpp lines 230-234: `if (first == last ||
invoke(pred, invoke(proj, *first))) return first; return first + 1;`. -/
def scan_if_not_fn (s : List α) (i : Nat) (pred : γ → Bool) (proj : α → γ) :
    Nat :=
  match s.drop i with
  | [] => i
  | a :: _ => if pred (proj a) then i else i + 1

end detail

namespace modimpl

/-- Module `scanning_algorithms`, `pltk::scan_fn::operator()(I first, S last,
const T and value, Pred pred, Proj proj)` — part_001 lines 23-27; the body is
identical to the header's. -/
def scan_fn_value (s : List α) (i : Nat) (v : δ)
    (pred : γ → δ → Bool) (proj : α → γ) : Nat :=
  match s.drop i with
  | [] => i
  | a :: _ => if pred (proj a) v then i + 1 else i

/-- Module `scanning_algorithms`, `pltk::scan_fn::operator()(I1 first1, S1
last1, I2 first2, S2 last2, ...)` — part_001 lines 45-56; identical body to
the header's. -/
def scan_fn_pattern (s : List α) (i : Nat) (p : List β)
    (pred : γ → δ → Bool) (proj1 : α → γ) (proj2 : β → δ) : Nat :=
  let k := mismatchCount pred proj1 proj2 (s.drop i) p
  if k = p.length then i + k else i

/-- Module `scanning_algorithms`, `pltk::scan_if_fn::operator()` — part_001
lines 111-115; identical body to the header's. -/
def scan_if_fn (s : List α) (i : Nat) (pred : γ → Bool) (proj : α → γ) : Nat :=
  match s.drop i with
  | [] => i
  | a :: _ => if pred (proj a) then i + 1 else i

/-- Module `scanning_algorithms`, `pltk::scan_not_fn::operator()` value form —
part_001 lines 134-138; identical body to the header's. -/
def scan_not_fn_value (s : List α) (i : Nat) (v : δ)
    (pred : γ → δ → Bool) (proj : α → γ) : Nat :=
  match s.drop i with
  | [] => i
  | a :: _ => if pred (proj a) v then i else i + 1

/-- Module `scanning_algorithms`, `pltk::scan_not_fn::operator()` pattern form
— part_001 lines 156-167; identical body to the header's. -/
def scan_not_fn_pattern (s : List α) (i : Nat) (p : List β)
    (pred : γ → δ → Bool) (proj1 : α → γ) (proj2 : β → δ) : Nat :=
  let k := mismatchCount pred proj1 proj2 (s.drop i) p
  if k ≠ p.length then i + 1 else i

/-- Module `scanning_algorithms`, `pltk::scan_if_not_fn::operator()` —
part_001 lines 222-226; identical body to the header's. -/
def scan_if_not_fn (s : List α) (i : Nat) (pred : γ → Bool) (proj : α → γ) :
    Nat :=
  match s.drop i with
  | [] => i
  | a :: _ => if pred (proj a) then i else i + 1

/-- `pltk::scan_excluding_fn::operator()(I first, S last, Scanner scanner)` —
part_001 lines 246-251: `if (invoke(scanner, first, last) != first) return
first; return first + 1;`.  The wrapped scanner receives the cursor and the
end marker, mirroring the `(I, S) → I` contract.  Note the code performs no
`first == last` check of its own. -/
def scan_excluding_fn (i n : Nat) (scanner : Nat → Nat → Nat) : Nat :=
  if scanner i n ≠ i then i else i + 1

/-- `pltk::scan_while_excluding_fn::operator()(I first, S last, Scanner
scanner)` — part_001 lines 270-276: `while (first != last && invoke(scanner,
first, last) == first) ++first; return first;`.  The loop condition
`first != last` is rendered as `i < n`: a forward cursor walked incrementally
from a valid position satisfies `i ≤ n`, on which the two conditions agree;
this also makes the loop's termination measure `n - i` explicit. -/
def scan_while_excluding_fn (i n : Nat) (scanner : Nat → Nat → Nat) : Nat :=
  if h : i < n ∧ scanner i n = i then scan_while_excluding_fn (i + 1) n scanner
  else i
termination_by n - i
decreasing_by omega

end modimpl

/-- The match condition of the pattern forms, as the spec words it: the source
sequence, read from cursor position `i`, has at least `p.length` elements and
each compares equal — via `pred`, each side through its own projection — to
the corresponding pattern element.  (`List.Forall₂` forces the two lists to
have equal length, so it also captures "the first N elements exist".) -/
def PrefixMatches (pred : γ → δ → Bool) (proj1 : α → γ) (proj2 : β → δ)
    (s : List α) (i : Nat) (p : List β) : Prop :=
  List.Forall₂ (fun a b => pred (proj1 a) (proj2 b) = true)
    ((s.drop i).take p.length) p

/-- The mismatch count reaches the full length of the second sequence exactly
when the first sequence has a long-enough, elementwise-matching prefix. -/
lemma mismatchCount_eq_length_iff (pred : γ → δ → Bool) (proj1 : α → γ)
    (proj2 : β → δ) :
    ∀ (xs : List α) (ys : List β),
      mismatchCount pred proj1 proj2 xs ys = ys.length ↔
        List.Forall₂ (fun a b => pred (proj1 a) (proj2 b) = true)
          (xs.take ys.length) ys
  | [], [] => by simp [mismatchCount]
  | [], b :: ys => by simp [mismatchCount]
  | a :: xs, [] => by simp [mismatchCount]
  | a :: xs, b :: ys => by
      by_cases h : pred (proj1 a) (proj2 b) = true
      · simp [mismatchCount, h, List.forall₂_cons,
          mismatchCount_eq_length_iff pred proj1 proj2 xs ys]
      · simp [mismatchCount, h, List.forall₂_cons]

lemma scan_fn_pattern_of_match (pred : γ → δ → Bool) (proj1 : α → γ)
    (proj2 : β → δ) (s : List α) (i : Nat) (p : List β)
    (h : PrefixMatches pred proj1 proj2 s i p) :
    detail.scan_fn_pattern s i p pred proj1 proj2 = i + p.length := by
  have hk : mismatchCount pred proj1 proj2 (s.drop i) p = p.length :=
    (mismatchCount_eq_length_iff pred proj1 proj2 (s.drop i) p).mpr h
  simp [detail.scan_fn_pattern, hk]

lemma scan_fn_pattern_of_not_match (pred : γ → δ → Bool) (proj1 : α → γ)
    (proj2 : β → δ) (s : List α) (i : Nat) (p : List β)
    (h : ¬ PrefixMatches pred proj1 proj2 s i p) :
    detail.scan_fn_pattern s i p pred proj1 proj2 = i := by
  have hk : mismatchCount pred proj1 proj2 (s.drop i) p ≠ p.length := fun hc =>
    h ((mismatchCount_eq_length_iff pred proj1 proj2 (s.drop i) p).mp hc)
  simp [detail.scan_fn_pattern, hk]

lemma scan_not_fn_pattern_of_match (pred : γ → δ → Bool) (proj1 : α → γ)
    (proj2 : β → δ) (s : List α) (i : Nat) (p : List β)
    (h : PrefixMatches pred proj1 proj2 s i p) :
    detail.scan_not_fn_pattern s i p pred proj1 proj2 = i := by
  have hk : mismatchCount pred proj1 proj2 (s.drop i) p = p.length :=
    (mismatchCount_eq_length_iff pred proj1 proj2 (s.drop i) p).mpr h
  simp [detail.scan_not_fn_pattern, hk]

lemma scan_not_fn_pattern_of_not_match (pred : γ → δ → Bool) (proj1 : α → γ)
    (proj2 : β → δ) (s : List α) (i : Nat) (p : List β)
    (h : ¬ PrefixMatches pred proj1 proj2 s i p) :
    detail.scan_not_fn_pattern s i p pred proj1 proj2 = i + 1 := by
  have hk : mismatchCount pred proj1 proj2 (s.drop i) p ≠ p.length := fun hc =>
    h ((mismatchCount_eq_length_iff pred proj1 proj2 (s.drop i) p).mp hc)
  simp [detail.scan_not_fn_pattern, hk]

/-- The skip loop never moves the cursor past the end marker. -/
lemma scan_while_excluding_le (scanner : Nat → Nat → Nat) :
    ∀ (k i n : Nat), n - i ≤ k → i ≤ n →
      modimpl.scan_while_excluding_fn i n scanner ≤ n := by
  intro k
  induction k with
  | zero =>
    intro i n hk hi
    rw [modimpl.scan_while_excluding_fn]
    rw [dif_neg (fun hc => absurd hc.1 (by omega))]
    exact hi
  | succ k ih =>
    intro i n hk hi
    rw [modimpl.scan_while_excluding_fn]
    by_cases h : i < n ∧ scanner i n = i
    · rw [dif_pos h]
      exact ih (i + 1) n (by omega) h.1
    · rw [dif_neg h]
      exact hi

/-- When the wrapped scanner reports no advancement at every valid position,
the skip loop runs to the end marker. -/
lemma scan_while_excluding_all (scanner : Nat → Nat → Nat) :
    ∀ (k i n : Nat), n - i ≤ k → i ≤ n → (∀ j, j < n → scanner j n = j) →
      modimpl.scan_while_excluding_fn i n scanner = n := by
  intro k
  induction k with
  | zero =>
    intro i n hk hi _
    rw [modimpl.scan_while_excluding_fn]
    rw [dif_neg (fun hc => absurd hc.1 (by omega))]
    omega
  | succ k ih =>
    intro i n hk hi hall
    rw [modimpl.scan_while_excluding_fn]
    rcases Nat.lt_or_ge i n with hlt | hge
    · rw [dif_pos ⟨hlt, hall i hlt⟩]
      exact ih (i + 1) n (by omega) hlt hall
    · rw [dif_neg (fun hc => absurd hc.1 (by omega))]
      omega

/-- The skip loop stops immediately when its entry condition fails. -/
lemma scan_while_excluding_stop (scanner : Nat → Nat → Nat) (i n : Nat)
    (h : ¬ (i < n ∧ scanner i n = i)) :
    modimpl.scan_while_excluding_fn i n scanner = i := by
  rw [modimpl.scan_while_excluding_fn, dif_neg h]

/-- Claim C1: for every one of the six operations and every input where its
match condition is false, the returned position equals the input position
exactly; no operation signals failure through an exceptional control-flow
path (every operation is a total function into `Nat` — no `Option` or
`Except` — so "no match" is conveyed solely by the returned position being
the input position). -/
theorem no_match_returns_input_position :
    (∀ (s : List α) (i : Nat) (v : δ) (pred : γ → δ → Bool) (proj : α → γ),
        (∀ a t, s.drop i = a :: t → pred (proj a) v = false) →
        detail.scan_fn_value s i v pred proj = i) ∧
    (∀ (s : List α) (i : Nat) (p : List β) (pred : γ → δ → Bool)
        (proj1 : α → γ) (proj2 : β → δ),
        ¬ PrefixMatches pred proj1 proj2 s i p →
        detail.scan_fn_pattern s i p pred proj1 proj2 = i) ∧
    (∀ (s : List α) (i : Nat) (pred : γ → Bool) (proj : α → γ),
        (∀ a t, s.drop i = a :: t → pred (proj a) = false) →
        detail.scan_if_fn s i pred proj = i) ∧
    (∀ (s : List α) (i : Nat) (v : δ) (pred : γ → δ → Bool) (proj : α → γ),
        (∀ a t, s.drop i = a :: t → pred (proj a) v = true) →
        detail.scan_not_fn_value s i v pred proj = i) ∧
    (∀ (s : List α) (i : Nat) (p : List β) (pred : γ → δ → Bool)
        (proj1 : α → γ) (proj2 : β → δ),
        PrefixMatches pred proj1 proj2 s i p →
        detail.scan_not_fn_pattern s i p pred proj1 proj2 = i) ∧
    (∀ (s : List α) (i : Nat) (pred : γ → Bool) (proj : α → γ),
        (∀ a t, s.drop i = a :: t → pred (proj a) = true) →
        detail.scan_if_not_fn s i pred proj = i) ∧
    (∀ (i n : Nat) (scanner : Nat → Nat → Nat),
        scanner i n ≠ i → modimpl.scan_excluding_fn i n scanner = i) ∧
    (∀ (i n : Nat) (scanner : Nat → Nat → Nat),
        ¬ (i < n ∧ scanner i n = i) →
        modimpl.scan_while_excluding_fn i n scanner = i) := by
  refine ⟨?_, ?_, ?_, ?_, ?_, ?_, ?_, ?_⟩
  · intro s i v pred proj h
    cases hd : s.drop i with
    | nil => simp [detail.scan_fn_value, hd]
    | cons a t => simp [detail.scan_fn_value, hd, h a t hd]
  · intro s i p pred proj1 proj2 h
    exact scan_fn_pattern_of_not_match pred proj1 proj2 s i p h
  · intro s i pred proj h
    cases hd : s.drop i with
    | nil => simp [detail.scan_if_fn, hd]
    | cons a t => simp [detail.scan_if_fn, hd, h a t hd]
  · intro s i v pred proj h
    cases hd : s.drop i with
    | nil => simp [detail.scan_not_fn_value, hd]
    | cons a t => simp [detail.scan_not_fn_value, hd, h a t hd]
  · intro s i p pred proj1 proj2 h
    exact scan_not_fn_pattern_of_match pred proj1 proj2 s i p h
  · intro s i pred proj h
    cases hd : s.drop i with
    | nil => simp [detail.scan_if_not_fn, hd]
    | cons a t => simp [detail.scan_if_not_fn, hd, h a t hd]
  · intro i n scanner h
    simp [modimpl.scan_excluding_fn, h]
  · intro i n scanner h
    exact scan_while_excluding_stop scanner i n h

/-- Claim C2: `scan` in its pattern form returns the source cursor advanced
by exactly the pattern's length when the source's first `p.length` elements
exist and elementwise match the pattern (through the comparison policy and
the two projections), and returns the original cursor unchanged otherwise —
never a partially advanced position. -/
theorem scan_pattern_advances_by_length (pred : γ → δ → Bool) (proj1 : α → γ)
    (proj2 : β → δ) (s : List α) (i : Nat) (p : List β) :
    (PrefixMatches pred proj1 proj2 s i p →
        detail.scan_fn_pattern s i p pred proj1 proj2 = i + p.length) ∧
    (¬ PrefixMatches pred proj1 proj2 s i p →
        detail.scan_fn_pattern s i p pred proj1 proj2 = i) :=
  ⟨scan_fn_pattern_of_match pred proj1 proj2 s i p,
   scan_fn_pattern_of_not_match pred proj1 proj2 s i p⟩

/-- Claim C3: `scan_not` in its pattern form advances the cursor by exactly
one (never by the pattern's length) iff the source's first `p.length`
elements do not all match the pattern — whether because the source is too
short or because some element differs — and returns the cursor unchanged
when the full length-`p.length` prefix matches. -/
theorem scan_not_pattern_advances_by_one (pred : γ → δ → Bool)
    (proj1 : α → γ) (proj2 : β → δ) (s : List α) (i : Nat) (p : List β) :
    (detail.scan_not_fn_pattern s i p pred proj1 proj2 = i + 1 ↔
        ¬ PrefixMatches pred proj1 proj2 s i p) ∧
    (PrefixMatches pred proj1 proj2 s i p →
        detail.scan_not_fn_pattern s i p pred proj1 proj2 = i) := by
  refine ⟨⟨fun h hm => ?_, scan_not_fn_pattern_of_not_match pred proj1 proj2 s i p⟩,
    scan_not_fn_pattern_of_match pred proj1 proj2 s i p⟩
  have := scan_not_fn_pattern_of_match pred proj1 proj2 s i p hm
  omega

/-- Claim C4: `scan_excluding` returns the cursor advanced by exactly one iff
the wrapped scanner, invoked at that position, returns the position
unchanged; whenever the scanner reports any advancement, `scan_excluding`
returns the original cursor unchanged. -/
theorem scan_excluding_advances_iff (i n : Nat) (scanner : Nat → Nat → Nat) :
    (modimpl.scan_excluding_fn i n scanner = i + 1 ↔ scanner i n = i) ∧
    (scanner i n ≠ i → modimpl.scan_excluding_fn i n scanner = i) := by
  unfold modimpl.scan_excluding_fn
  by_cases h : scanner i n = i
  · simp [h]
  · simp [h]

/-- Claim C5: `scan_while_excluding` always terminates (it is a total Lean
function, by descent on `n - i`); starting from a valid cursor it never moves
the cursor past the end marker; when the wrapped scanner reports no
advancement at every position it returns the end marker; and it stops and
returns the current cursor as soon as either the end is reached or the
wrapped scanner reports advancement at the current position. -/
theorem scan_while_excluding_bounded (i n : Nat) (scanner : Nat → Nat → Nat)
    (h : i ≤ n) :
    modimpl.scan_while_excluding_fn i n scanner ≤ n ∧
    ((∀ j, j < n → scanner j n = j) →
        modimpl.scan_while_excluding_fn i n scanner = n) ∧
    (¬ (i < n ∧ scanner i n = i) →
        modimpl.scan_while_excluding_fn i n scanner = i) :=
  ⟨scan_while_excluding_le scanner (n - i) i n le_rfl h,
   fun hall => scan_while_excluding_all scanner (n - i) i n le_rfl h hall,
   scan_while_excluding_stop scanner i n⟩

/-- Claim C6: given a cursor that is at an element (not at the end marker),
exactly one of `scan_if` and `scan_if_not` advances the position for the
same predicate and element — never both and never neither. -/
theorem scan_if_complementarity (s : List α) (i : Nat) (pred : γ → Bool)
    (proj : α → γ) (h : i < s.length) :
    (detail.scan_if_fn s i pred proj = i + 1 ∧
        detail.scan_if_not_fn s i pred proj = i) ∨
    (detail.scan_if_fn s i pred proj = i ∧
        detail.scan_if_not_fn s i pred proj = i + 1) := by
  have hd : s.drop i = s[i] :: s.drop (i + 1) := List.drop_eq_getElem_cons h
  by_cases hp : pred (proj s[i]) = true
  · left
    constructor
    · unfold detail.scan_if_fn
      rw [hd]
      simp [hp]
    · unfold detail.scan_if_not_fn
      rw [hd]
      simp [hp]
  · right
    constructor
    · unfold detail.scan_if_fn
      rw [hd]
      simp [hp]
    · unfold detail.scan_if_not_fn
      rw [hd]
      simp [hp]

/-- Claim C7: `scan` with a zero-element pattern returns the input cursor
unchanged, for every source and position — including an empty source. -/
theorem scan_empty_pattern_identity (s : List α) (i : Nat)
    (pred : γ → δ → Bool) (proj1 : α → γ) (proj2 : β → δ) :
    detail.scan_fn_pattern s i ([] : List β) pred proj1 proj2 = i := by
  cases hd : s.drop i <;> simp [detail.scan_fn_pattern, mismatchCount, hd]

/-- Claim C8: the header implementations (`pltk::detail` in
scanning_algorithms.hpp) and the module implementations (exported module
`scanning_algorithms`) of the four scan operations compute identical
results on every input, for every comparison policy and projection. -/
theorem header_module_same_results :
    (∀ (s : List α) (i : Nat) (v : δ) (pred : γ → δ → Bool) (proj : α → γ),
        detail.scan_fn_value s i v pred proj =
          modimpl.scan_fn_value s i v pred proj) ∧
    (∀ (s : List α) (i : Nat) (p : List β) (pred : γ → δ → Bool)
        (proj1 : α → γ) (proj2 : β → δ),
        detail.scan_fn_pattern s i p pred proj1 proj2 =
          modimpl.scan_fn_pattern s i p pred proj1 proj2) ∧
    (∀ (s : List α) (i : Nat) (pred : γ → Bool) (proj : α → γ),
        detail.scan_if_fn s i pred proj = modimpl.scan_if_fn s i pred proj) ∧
    (∀ (s : List α) (i : Nat) (v : δ) (pred : γ → δ → Bool) (proj : α → γ),
        detail.scan_not_fn_value s i v pred proj =
          modimpl.scan_not_fn_value s i v pred proj) ∧
    (∀ (s : List α) (i : Nat) (p : List β) (pred : γ → δ → Bool)
        (proj1 : α → γ) (proj2 : β → δ),
        detail.scan_not_fn_pattern s i p pred proj1 proj2 =
          modimpl.scan_not_fn_pattern s i p pred proj1 proj2) ∧
    (∀ (s : List α) (i : Nat) (pred : γ → Bool) (proj : α → γ),
        detail.scan_if_not_fn s i pred proj =
          modimpl.scan_if_not_fn s i pred proj) :=
  ⟨fun _ _ _ _ _ => rfl, fun _ _ _ _ _ _ => rfl, fun _ _ _ _ => rfl,
   fun _ _ _ _ _ => rfl, fun _ _ _ _ _ _ => rfl, fun _ _ _ _ => rfl⟩

/-- Claim C9: `scan_excluding` performs no end-of-sequence check: invoked
with the cursor already at the end marker (`first == last`) and a wrapped
scanner that returns its input position unchanged, it returns a position
one step past the end marker rather than the input position. -/
theorem scan_excluding_no_end_check (n : Nat) (scanner : Nat → Nat → Nat)
    (h : scanner n n = n) :
    modimpl.scan_excluding_fn n n scanner = n + 1 := by
  simp [modimpl.scan_excluding_fn, h]

/-- Claim C10: `scan_not` in its pattern form, invoked with an empty source
(`first1 == last1`, i.e. the cursor at the source's length) and a non-empty
pattern, returns a position one step past the end marker of the empty
source: the mismatch result has `in2 != last2` and nothing guards the
`first1 + 1` advancement. -/
theorem scan_not_pattern_empty_source (s : List α) (p : List β)
    (pred : γ → δ → Bool) (proj1 : α → γ) (proj2 : β → δ) (hp : p ≠ []) :
    detail.scan_not_fn_pattern s s.length p pred proj1 proj2 =
      s.length + 1 := by
  cases p with
  | nil => exact absurd rfl hp
  | cons b q =>
      simp [detail.scan_not_fn_pattern, List.drop_length, mismatchCount]

end pltk

/-- Concrete instances of claim C1's identity-on-no-match property, one per
operation. -/
theorem no_match_returns_input_position_witness :
    pltk.detail.scan_fn_value [3] 1 0 (fun a b => a == b) id = 1 ∧
    pltk.detail.scan_fn_pattern ([] : List Nat) 0 [0] (fun a b => a == b)
      id id = 0 ∧
    pltk.detail.scan_if_fn [3] 1 (fun a => a == 3) id = 1 ∧
    pltk.detail.scan_not_fn_value [3] 1 3 (fun a b => a == b) id = 1 ∧
    pltk.detail.scan_not_fn_pattern ([] : List Nat) 0 ([] : List Nat)
      (fun a b => a == b) id id = 0 ∧
    pltk.detail.scan_if_not_fn [3] 1 (fun a => a == 3) id = 1 ∧
    pltk.modimpl.scan_excluding_fn 0 0 (fun _ _ => 5) = 0 ∧
    pltk.modimpl.scan_while_excluding_fn 0 0 (fun j _ => j) = 0 := by
  obtain ⟨h1, h2, h3, h4, h5, h6, h7, h8⟩ :=
    @pltk.no_match_returns_input_position Nat Nat Nat Nat
  refine ⟨h1 _ _ _ _ _ ?_, h2 _ _ _ _ _ _ ?_, h3 _ _ _ _ ?_, h4 _ _ _ _ _ ?_,
    h5 _ _ _ _ _ _ ?_, h6 _ _ _ _ ?_, h7 _ _ _ ?_, h8 _ _ _ ?_⟩
  · intro a t hd
    simp at hd
  · simp [pltk.PrefixMatches]
  · intro a t hd
    simp at hd
  · intro a t hd
    simp at hd
  · exact List.Forall₂.nil
  · intro a t hd
    simp at hd
  · decide
  · simp

/-- Concrete instances of claim C2: full match of a length-2 pattern advances
by 2; a mismatching pattern leaves the cursor unchanged. -/
theorem scan_pattern_advances_by_length_witness :
    pltk.detail.scan_fn_pattern [1, 2, 3] 0 [1, 2] (fun a b => a == b)
      id id = 2 ∧
    pltk.detail.scan_fn_pattern [1, 2, 3] 0 [9] (fun a b => a == b)
      id id = 0 := by
  constructor
  · exact (pltk.scan_pattern_advances_by_length (fun a b => a == b) id id
      [1, 2, 3] 0 [1, 2]).1 (by simp [pltk.PrefixMatches])
  · exact (pltk.scan_pattern_advances_by_length (fun a b => a == b) id id
      [1, 2, 3] 0 [9]).2 (by simp [pltk.PrefixMatches])

/-- Concrete instances of claim C3: a mismatching pattern advances by exactly
one; a fully matching pattern leaves the cursor unchanged. -/
theorem scan_not_pattern_advances_by_one_witness :
    pltk.detail.scan_not_fn_pattern [1, 2, 3] 0 [9] (fun a b => a == b)
      id id = 1 ∧
    pltk.detail.scan_not_fn_pattern [1, 2, 3] 0 [1, 2] (fun a b => a == b)
      id id = 0 := by
  constructor
  · exact (pltk.scan_not_pattern_advances_by_one (fun a b => a == b) id id
      [1, 2, 3] 0 [9]).1.mpr (by simp [pltk.PrefixMatches])
  · exact (pltk.scan_not_pattern_advances_by_one (fun a b => a == b) id id
      [1, 2, 3] 0 [1, 2]).2 (by simp [pltk.PrefixMatches])

/-- Concrete instance of claim C4: a scanner that advances makes
`scan_excluding` return the cursor unchanged. -/
theorem scan_excluding_advances_iff_witness :
    pltk.modimpl.scan_excluding_fn 0 1 (fun _ _ => 2) = 0 :=
  (pltk.scan_excluding_advances_iff 0 1 (fun _ _ => 2)).2 (by decide)

/-- Concrete instance of claim C5: a scanner that never advances makes
`scan_while_excluding` run to the end marker. -/
theorem scan_while_excluding_bounded_witness :
    pltk.modimpl.scan_while_excluding_fn 0 2 (fun j _ => j) = 2 :=
  (pltk.scan_while_excluding_bounded 0 2 (fun j _ => j) (by decide)).2.1
    (fun _ _ => rfl)

/-- Concrete instance of claim C6 at the element 5 with the predicate
"equals 5". -/
theorem scan_if_complementarity_witness :
    (pltk.detail.scan_if_fn [5] 0 (fun a => a == 5) id = 1 ∧
        pltk.detail.scan_if_not_fn [5] 0 (fun a => a == 5) id = 0) ∨
    (pltk.detail.scan_if_fn [5] 0 (fun a => a == 5) id = 0 ∧
        pltk.detail.scan_if_not_fn [5] 0 (fun a => a == 5) id = 1) :=
  pltk.scan_if_complementarity [5] 0 (fun a => a == 5) id (by decide)

/-- Concrete instance of claim C9: at the end of an empty sequence, with a
non-advancing scanner, `scan_excluding` returns position 1 — past the end. -/
theorem scan_excluding_no_end_check_witness :
    pltk.modimpl.scan_excluding_fn 0 0 (fun j _ => j) = 1 :=
  pltk.scan_excluding_no_end_check 0 (fun j _ => j) rfl

/-- Concrete instance of claim C10: an empty source and the pattern `[7]`
make `scan_not` return position 1 — past the end of the empty source. -/
theorem scan_not_pattern_empty_source_witness :
    pltk.detail.scan_not_fn_pattern ([] : List Nat) 0 [7] (fun a b => a == b)
      id id = 1 :=
  pltk.scan_not_pattern_empty_source ([] : List Nat) [7] (fun a b => a == b)
    id id (by decide)
